import Mathlib

/-!
Verification of the `ObservatoryL2Halo` observatory model (EXOSIMS).

The Python source (`EXOSIMS/Observatory/ObservatoryL2Halo.py`) is shallowly
embedded over the real numbers: float arithmetic becomes exact real
arithmetic, numpy arrays become `Fin n → ℝ` or `List` values, exceptions
become `Except ModelErr`, and the possibility of IEEE non-finite values
(nan/inf) in the `orbit` pipeline is tracked with `Option ℝ` (where `none`
stands for a non-finite float).  Collaborator methods that live outside the
embedded file (the prototype `rot`, `eclip2equat`, the Earth-ephemeris and
star-position providers) are either oracle parameters or are modelled from
the specification, as indicated by their doc comments.
-/

noncomputable section

/-- Error taxonomy of the observatory model, following the specification:
interpolation outside the sampled domain, a non-finite position component,
a Python NameError raised by the constructor, and missing orbit data. -/
inductive ModelErr
  | domainError
  | numericalFault
  | nameError
  | dataUnavailable
deriving DecidableEq

/-- Python float modulo `dt % P` (for the times used here): the remainder
of `dt` after subtracting the floor multiple of `P`.  For `P > 0` the
result lies in `[0, P)`.  Models line `t_halo = dt % self.period_halo`. -/
def wrapTime (P dt : ℝ) : ℝ := dt - P * (⌊dt / P⌋ : ℤ)

/-- Piecewise-linear interpolation over a list of (time, value) samples,
as performed by `scipy.interpolate.interp1d(kind='linear')` inside its
sampled domain: find the segment containing `x` and blend linearly. -/
def pieceEval : List (ℝ × (Fin 3 → ℝ)) → ℝ → (Fin 3 → ℝ)
  | [], _ => fun _ => 0
  | [(_, y)], _ => y
  | (t1, y1) :: (t2, y2) :: rest, x =>
    if x ≤ t2 then fun i => y1 i + (x - t1) / (t2 - t1) * (y2 i - y1 i)
    else pieceEval ((t2, y2) :: rest) x

/-- Evaluation of a `scipy.interpolate.interp1d` linear interpolant built
over sample times `ts` and sample vectors `ys`.  With the default
`bounds_error=True` (used by the source), a query outside
`[ts.head, ts.last]` raises a ValueError, modelled as `domainError`;
inside the domain it interpolates linearly. -/
def interpEval (ts : List ℝ) (ys : List (Fin 3 → ℝ)) (x : ℝ) :
    Except ModelErr (Fin 3 → ℝ) :=
  match ts with
  | [] => .error .domainError
  | t0 :: rest =>
    if x < t0 ∨ rest.getLastD t0 < x then .error .domainError
    else .ok (pieceEval (List.zip (t0 :: rest) ys) x)

/-- The immutable state loaded by the `ObservatoryL2Halo` constructor:
mass ratio, halo period (normalized years), L2 distance (AU), equinox
epoch (MJD), halo start offset (days), SRP flag, and the ephemeris sample
arrays backing the three interpolants (`r_halo_interp`, `v_halo_interp`,
`r_halo_interp_L2`). -/
structure HaloCtx where
  mu : ℝ
  period_halo : ℝ
  L2_dist : ℝ
  equinox : ℝ
  haloStartTime : ℝ
  SRP : Bool
  tSamples : List ℝ
  rSamples : List (Fin 3 → ℝ)
  vSamples : List (Fin 3 → ℝ)
  rL2Samples : List (Fin 3 → ℝ)

/-- Elapsed years since the equinox epoch plus the start offset, as in
`dt = (currentTime - self.equinox + t0).to('yr').value` (astropy years are
Julian years of 365.25 days). -/
def elapsedYears (ctx : HaloCtx) (t : ℝ) : ℝ :=
  (t - ctx.equinox + ctx.haloStartTime) / 365.25

/-- The `haloPosition` method: reduce the elapsed time modulo the halo
period and evaluate the L2-relative rotating-frame position interpolant. -/
def haloPosition (ctx : HaloCtx) (t : ℝ) : Except ModelErr (Fin 3 → ℝ) :=
  interpEval ctx.tSamples ctx.rL2Samples
    (wrapTime ctx.period_halo (elapsedYears ctx t))

/-- The `haloVelocity` method: same time reduction, velocity interpolant. -/
def haloVelocity (ctx : HaloCtx) (t : ℝ) : Except ModelErr (Fin 3 → ℝ) :=
  interpEval ctx.tSamples ctx.vSamples
    (wrapTime ctx.period_halo (elapsedYears ctx t))

/-- The Earth-relative heliocentric-ecliptic position interpolant as used
in `orbit` (`r_halo = self.r_halo_interp(t_halo).T`). -/
def positionEarthRel (ctx : HaloCtx) (t : ℝ) : Except ModelErr (Fin 3 → ℝ) :=
  interpEval ctx.tSamples ctx.rSamples
    (wrapTime ctx.period_halo (elapsedYears ctx t))

/-- Modelled from the spec: the prototype `rotate(angle, axis)` helper
(`self.rot`, defined outside the embedded file) returns the right-handed
frame-rotation matrix about a principal axis; this is its action about the
third (z) axis on a 3-vector. -/
def rot3apply (th : ℝ) (v : Fin 3 → ℝ) : Fin 3 → ℝ :=
  ![Real.cos th * v 0 + Real.sin th * v 1,
    -Real.sin th * v 0 + Real.cos th * v 1,
    v 2]

/-- Transpose action of `rot3apply`, as used by `rot2inertV`
(`At = self.rot(t_norm,3).T`). -/
def rot3Tapply (th : ℝ) (v : Fin 3 → ℝ) : Fin 3 → ℝ :=
  ![Real.cos th * v 0 - Real.sin th * v 1,
    Real.sin th * v 0 + Real.cos th * v 1,
    v 2]

/-- Euclidean norm of a 3-vector (`np.linalg.norm`). -/
def norm3 (v : Fin 3 → ℝ) : ℝ := Real.sqrt (v 0 ^ 2 + v 1 ^ 2 + v 2 ^ 2)

/-- The mean obliquity of the ecliptic, in radians. -/
def obliquity : ℝ := 23.439291 * Real.pi / 180

/-- Modelled from the spec: `eclipticToEquatorial` (the prototype
`eclip2equat`, defined outside the embedded file) applies the standard
obliquity rotation about the first (x) axis.  On exact (finite) inputs it
always produces finite components, hence the `some`s. -/
def eclip2equatSpec (v : Fin 3 → ℝ) : Fin 3 → Option ℝ :=
  ![some (v 0),
    some (Real.cos obliquity * v 1 + Real.sin obliquity * v 2),
    some (-Real.sin obliquity * v 1 + Real.cos obliquity * v 2)]

/-- Lifted addition on possibly non-finite floats. -/
def fadd (a b : Option ℝ) : Option ℝ := a.bind fun x => b.map fun y => x + y

/-- Lifted multiplication on possibly non-finite floats. -/
def fmul (a b : Option ℝ) : Option ℝ := a.bind fun x => b.map fun y => x * y

/-- Lifted negation on possibly non-finite floats. -/
def fneg (a : Option ℝ) : Option ℝ := a.map fun x => -x

/-- Lifted division: IEEE division by zero yields a non-finite value
(inf or nan), so a zero divisor maps to `none`. -/
def fdiv (a b : Option ℝ) : Option ℝ :=
  a.bind fun x => b.bind fun y => if y = 0 then none else some (x / y)

/-- Lifted square root: a negative argument yields nan. -/
def fsqrt (a : Option ℝ) : Option ℝ :=
  a.bind fun x => if x < 0 then none else some (Real.sqrt x)

/-- Lifted arccos: an argument outside `[-1, 1]` yields nan. -/
def farccos (a : Option ℝ) : Option ℝ :=
  a.bind fun x => if 1 < |x| then none else some (Real.arccos x)

/-- Lifted `np.sign`. -/
def fsign (a : Option ℝ) : Option ℝ := a.map Real.sign

/-- Lifted cosine. -/
def fcos (a : Option ℝ) : Option ℝ := a.map Real.cos

/-- Lifted sine. -/
def fsin (a : Option ℝ) : Option ℝ := a.map Real.sin

/-- The arithmetic of `orbit` between the interpolated Earth-relative halo
position `rh` and the assertion (source lines 136-147): Earth-Sun distance
projected onto the ecliptic plane, x-shift, ecliptic longitude
`sign(y)*arccos(x/r)`, and rotation of the shifted vector by `-lon` about
the z axis.  Values are tracked as possibly non-finite floats. -/
def orbitCompute (rh rE : Fin 3 → ℝ) : Fin 3 → Option ℝ :=
  let rEn := fsqrt (fadd (fmul (some (rE 0)) (some (rE 0)))
                        (fmul (some (rE 1)) (some (rE 1))))
  let hx := fadd (some (rh 0)) rEn
  let lon := fmul (fsign (some (rE 1))) (farccos (fdiv (some (rE 0)) rEn))
  let ct := fcos (fneg lon)
  let st := fsin (fneg lon)
  ![fadd (fmul ct hx) (fmul st (some (rh 1))),
    fadd (fmul (fneg st) hx) (fmul ct (some (rh 1))),
    some (rh 2)]

/-- Collect the three components of a computed position when all are
finite; `none` when any component is non-finite. -/
def allSomeV (o : Fin 3 → Option ℝ) : Option (Fin 3 → ℝ) :=
  (o 0).bind fun a => (o 1).bind fun b => (o 2).map fun c => ![a, b, c]

/-- The tail of the `orbit` method after interpolation: the finiteness
assertion on the computed heliocentric-ecliptic vector (`assert
np.all(np.isfinite(r_obs))`), then the optional ecliptic-to-equatorial
conversion `conv` applied only when `eclip=False`. -/
def orbitAssertConv (conv : (Fin 3 → ℝ) → Fin 3 → Option ℝ)
    (rh rE : Fin 3 → ℝ) (eclip : Bool) :
    Except ModelErr (Fin 3 → Option ℝ) :=
  match allSomeV (orbitCompute rh rE) with
  | none => .error .numericalFault
  | some v => .ok (if eclip then fun i => some (v i) else conv v)

/-- The full `orbit` method: interpolate the Earth-relative position at the
reduced time, run the longitude/rotation arithmetic against the Earth
ephemeris oracle `earth`, assert finiteness, and optionally convert frames. -/
def orbit (conv : (Fin 3 → ℝ) → Fin 3 → Option ℝ) (ctx : HaloCtx)
    (earth : ℝ → Fin 3 → ℝ) (t : ℝ) (eclip : Bool) :
    Except ModelErr (Fin 3 → Option ℝ) :=
  (positionEarthRel ctx t).bind fun rh => orbitAssertConv conv rh (earth t) eclip

/-- The `eclip2rot` method (single-time branch): rotate the star's ecliptic
position (from the star-position oracle, the `TL.starprop` collaborator) by
`theta = (t mod equinox, in years) * 2*pi` about the z axis. -/
def eclip2rot (star : ℕ → ℝ → Fin 3 → ℝ) (ctx : HaloCtx) (sInd : ℕ) (t : ℝ) :
    Fin 3 → ℝ :=
  rot3apply (wrapTime ctx.equinox t / 365.25 * (2 * Real.pi)) (star sInd t)

/-- The `lookVectors` method: telescope rotating-frame positions at the two
times (`r_halo + [1,0,0]*L2_dist`), the two stars' rotating-frame
positions, the unit look-vectors telescope to star, and the returned angle
`(np.arccos(np.dot(u1[0], u2[0].T))*u.rad).to('deg')` - note that `u1[0]`
and `u2[0]` are the x-components of the shape-(3,) unit vectors. -/
def lookVectors (star : ℕ → ℝ → Fin 3 → ℝ) (ctx : HaloCtx)
    (N1 N2 : ℕ) (tA tB : ℝ) :
    Except ModelErr (ℝ × (Fin 3 → ℝ) × (Fin 3 → ℝ) × (Fin 2 → Fin 3 → ℝ)) :=
  (haloPosition ctx tA).bind fun rhA =>
  (haloPosition ctx tB).map fun rhB =>
    let rtA := fun i => rhA i + (![(1:ℝ), 0, 0]) i * ctx.L2_dist
    let rtB := fun i => rhB i + (![(1:ℝ), 0, 0]) i * ctx.L2_dist
    let star1 := eclip2rot star ctx N1 tA
    let star2 := eclip2rot star ctx N2 tB
    let s1t := fun i => star1 i - rtA i
    let s2t := fun i => star2 i - rtB i
    let u1 := fun i => s1t i / norm3 s1t
    let u2 := fun i => s2t i / norm3 s2t
    (Real.arccos (u1 0 * u2 0) * (180 / Real.pi), u1, u2, ![rtA, rtB])

/-- The position of the larger primary (mass fraction `1 - mu`) in the
rotating CRTBP frame; the source writes it as `rM1 = [-m2, 0, 0]` with
`m2 = mu`. -/
def largerPrimaryPos (mu : ℝ) : Fin 3 → ℝ := ![-mu, 0, 0]

/-- The position of the smaller primary (mass fraction `mu`). -/
def smallerPrimaryPos (mu : ℝ) : Fin 3 → ℝ := ![1 - mu, 0, 0]

/-- `rS_M1 = np.array([x,y,z]) - rM1.T`: body position relative to the
primary located at `(-mu, 0, 0)`. -/
def srpRS (mu x y z : ℝ) : Fin 3 → ℝ :=
  fun i => (![x, y, z]) i - largerPrimaryPos mu i

/-- `u1`, the radial (sun-line) unit vector of the SRP decomposition:
`rS_M1` normalized. -/
def srpU1 (mu x y z : ℝ) : Fin 3 → ℝ :=
  fun i => srpRS mu x y z i / norm3 (srpRS mu x y z)

/-- The unnormalized tangential direction `[u1[1], -u1[0], 0]`. -/
def srpT (mu x y z : ℝ) : Fin 3 → ℝ :=
  ![srpU1 mu x y z 1, -srpU1 mu x y z 0, 0]

/-- `u2`, the tangential unit vector of the SRP decomposition. -/
def srpU2 (mu x y z : ℝ) : Fin 3 → ℝ :=
  fun i => srpT mu x y z i / norm3 (srpT mu x y z)

/-- Distance unit conversion: metres per AU (astropy `u.AU`). -/
def DUm : ℝ := 149597870700

/-- Seconds per (Julian) year, astropy `u.yr`. -/
def yrSec : ℝ := 31557600

/-- The normalized time unit `TU = 2*pi / (1 yr in s)`. -/
def TUval : ℝ := 2 * Real.pi / yrSec

/-- The normalized mass unit `MU = 5.97e24*(1 + 1/81)/mu` kg. -/
def MUval (mu : ℝ) : ℝ := 5.97e24 * (1 + 1 / 81.0) / mu

/-- The normalized solar-radiation-pressure magnitude
`P = 4.473 uN/m^2 * DU / TU^2 / MU`. -/
def PsrpVal (mu : ℝ) : ℝ := 4.473e-6 * DUm / TUval ^ 2 / MUval mu

/-- Starshade cross-sectional area `A = pi*(36 m)^2`. -/
def AreaVal : ℝ := Real.pi * 36 ^ 2

/-- Radial SRP force coefficient `Fsrp_R = 0.25*P*A*(b1 + 0.25*b2 + 0.5*b3)`
with the fixed optical constants of the source. -/
def FsrpR (mu : ℝ) : ℝ :=
  let s : ℝ := 0.975
  let p : ℝ := 0.999
  let Bf : ℝ := 0.038
  let Bb : ℝ := 0.004
  let ef : ℝ := 0.8
  let eb : ℝ := 0.2
  let b1 := 0.5 * (1 - s * p)
  let b2 := s * p
  let b3 := 0.5 * (Bf * (1 - s) * p + (1 - p) * (ef * Bf - eb * Bb) / (ef + eb))
  0.25 * PsrpVal mu * AreaVal * (b1 + 0.25 * b2 + 0.5 * b3)

/-- Tangential SRP force coefficient
`Fsrp_T = sqrt(3)*0.25*P*A*(b2 + 2*b3)`. -/
def FsrpT (mu : ℝ) : ℝ :=
  let s : ℝ := 0.975
  let p : ℝ := 0.999
  let Bf : ℝ := 0.038
  let Bb : ℝ := 0.004
  let ef : ℝ := 0.8
  let eb : ℝ := 0.2
  let b2 := s * p
  let b3 := 0.5 * (Bf * (1 - s) * p + (1 - p) * (ef * Bf - eb * Bb) / (ef + eb))
  Real.sqrt 3 * 0.25 * PsrpVal mu * AreaVal * (b2 + 2 * b3)

/-- The `equationsOfMotion_CRTBP` method (single-state form): CRTBP
equations of motion with the optional SRP force, translated line by line
from the source.  `m1 = 1-mu`, `m2 = mu`; `r1`, `r2` are the distances to
the primaries at `(-mu,0,0)` and `(1-mu,0,0)`; the first three output
components are the input velocities. -/
def equationsOfMotion_CRTBP (mu : ℝ) (srp : Bool) (s : Fin 6 → ℝ) :
    Fin 6 → ℝ :=
  let m1 := 1 - mu
  let m2 := mu
  let x := s 0
  let y := s 1
  let z := s 2
  let dx := s 3
  let dy := s 4
  let dz := s 5
  let Fsrp : Fin 3 → ℝ :=
    if srp then
      fun i => FsrpR mu * srpU1 mu x y z i + FsrpT mu * srpU2 mu x y z i
    else fun _ => 0
  let r1 := Real.sqrt ((x + mu) ^ 2 + y ^ 2 + z ^ 2)
  let r2 := Real.sqrt ((1 - mu - x) ^ 2 + y ^ 2 + z ^ 2)
  let ds1 := x + 2 * dy + m1 * (-mu - x) / r1 ^ 3 + m2 * (1 - mu - x) / r2 ^ 3
  let ds2 := y - 2 * dx - m1 * y / r1 ^ 3 - m2 * y / r2 ^ 3
  let ds3 := -(m1 * z) / r1 ^ 3 - m2 * z / r2 ^ 3
  ![dx, dy, dz, ds1 + Fsrp 0, ds2 + Fsrp 1, ds3 + Fsrp 2]

/-- The `jacobian_CRTBP` method (single-state form), translated line by
line from the source, including its `a1`..`a9` abbreviations and the
fractional powers written there as `**(1.5)` and `**(2.5)`. -/
def jacobian_CRTBP (mu : ℝ) (s : Fin 6 → ℝ) : Fin 6 → Fin 6 → ℝ :=
  let m1 := 1 - mu
  let m2 := mu
  let x := s 0
  let y := s 1
  let z := s 2
  let a8 := (mu + x - 1) ^ 2 + y ^ 2 + z ^ 2
  let a9 := (mu - x) ^ 2 + y ^ 2 + z ^ 2
  let a1 := 2 * mu + 2 * x - 2
  let a2 := 2 * mu - 2 * x
  let a3 := m2 / a8 ^ (1.5 : ℝ)
  let a4 := m1 / a9 ^ (1.5 : ℝ)
  let a5 := 3 * m1 * y * z / a9 ^ (2.5 : ℝ) + 3 * m2 * y * z / a8 ^ (2.5 : ℝ)
  let a6 := 2 * a8
  let a7 := 2 * a9
  let J1x := 3 * m2 * a1 * (mu + x - 1) / a6 - a3 - a4
             - 3 * m1 * a2 * (mu + x) / a7 + 1
  let J1y := 3 * m1 * y * (mu + x) / a9 ^ (2.5 : ℝ)
             + 3 * m2 * y * (mu + x - 1) / a8 ^ (2.5 : ℝ)
  let J1z := 3 * m1 * z * (mu + x) / a9 ^ (2.5 : ℝ)
             + 3 * m2 * z * (mu + x - 1) / a8 ^ (2.5 : ℝ)
  let J2x := 3 * m2 * y * a1 / a6 - 3 * m1 * y * a2 / a7
  let J2y := 3 * m1 * y ^ 2 / a9 ^ (2.5 : ℝ) - a3 - a4
             + 3 * m2 * y ^ 2 / a8 ^ (2.5 : ℝ) + 1
  let J2z := a5
  let J3x := 3 * m2 * z * a1 / a6 - 2 * m1 * z * a2 / a7
  let J3y := a5
  let J3z := 3 * m1 * z ^ 2 / a9 ^ (2.5 : ℝ) - a3 - a4
             + 3 * m2 * z ^ 2 / a8 ^ (2.5 : ℝ)
  ![![0, 0, 0, 1, 0, 0],
    ![0, 0, 0, 0, 1, 0],
    ![0, 0, 0, 0, 0, 1],
    ![J1x, J1y, J1z, 0, 2, 0],
    ![J2x, J2y, J2z, -2, 0, 0],
    ![J3x, J3y, J3z, 0, 0, 0]]

/-- The `rot2inertV` method (single-state branch): inertial velocity from
rotating-frame position and velocity. -/
def rot2inertV (rR vR : Fin 3 → ℝ) (tn : ℝ) : Fin 3 → ℝ :=
  fun i => rot3Tapply tn vR i + rot3Tapply tn ![-(rR 1), rR 0, 0] i

/-- The `inert2rotV` method (single-time step): rotating-frame velocity
from rotating-frame position and inertial velocity. -/
def inert2rotV (rR vI : Fin 3 → ℝ) (tn : ℝ) : Fin 3 → ℝ :=
  fun i => rot3apply tn vI i + (![rR 1, -(rR 0), 0]) i

/-- Body position relative to the smaller primary, following the words of
the specification claim ("relative to the smaller primary (the secondary
of mass fraction mu, located at (1-mu, 0, 0))"), for comparison with the
source's `srpRS`. -/
def srpRSspec (mu x y z : ℝ) : Fin 3 → ℝ :=
  fun i => (![x, y, z]) i - smallerPrimaryPos mu i

/-- Radial unit vector computed from `srpRSspec`, following the words of
the specification claim, for comparison with the source's `srpU1`. -/
def srpU1spec (mu x y z : ℝ) : Fin 3 → ℝ :=
  fun i => srpRSspec mu x y z i / norm3 (srpRSspec mu x y z)

/-- Which source the constructor loaded the halo data from. -/
inductive HaloSource
  | fromCache
  | fromMat
deriving DecidableEq

/-- Outcome of the constructor's data-loading phase: the data source, the
final value of `orbit_datapath`, and whether a cache file was written. -/
structure LoadResult where
  source : HaloSource
  datapath : String
  wroteCache : Bool
deriving DecidableEq

/-- The five required cache fields: `keysHalo = ['te','t','state','x_lpoint','mu']`. -/
def keysHalo : List String := ["te", "t", "state", "x_lpoint", "mu"]

/-- The constructor's cache-loading control flow (source lines 40-74).
`fs` maps a path to the key set of the pickle stored there (`none` when the
file does not exist); `matExists` says whether the bundled
`L2_halo_orbit_six_month.mat` source file is present.  The local variable
`filename` is bound only in the `orbit_datapath is None` branch; the update
branch reads it unconditionally, so reaching that branch with a caller
supplied path raises a Python NameError, modelled as `.nameError`. -/
def constructLoad (cachedir : String) (orbitDatapath : Option String)
    (fs : String → Option (List String)) (matExists : Bool) :
    Except ModelErr LoadResult :=
  let fname : Option String :=
    match orbitDatapath with
    | none => some "L2_halo_orbit_six_month.p"
    | some _ => none
  let path0 : String :=
    match orbitDatapath with
    | none => cachedir ++ "/L2_halo_orbit_six_month.p"
    | some p => p
  let cacheKeys := fs path0
  let needToUpdate : Bool :=
    match cacheKeys with
    | some ks => ! keysHalo.all fun k => ks.contains k
    | none => false
  if cacheKeys.isNone || needToUpdate then
    match fname with
    | none => .error .nameError
    | some fn =>
      if matExists then .ok ⟨.fromMat, cachedir ++ "/" ++ fn, true⟩
      else .error .dataUnavailable
  else .ok ⟨.fromCache, path0, false⟩

/-- Concrete mass ratio `mu = 3.0e-6` used by the specification's test
scenarios. -/
def muC : ℝ := 3 / 1000000

/-- Concrete state `(2, 0, 0, 0, 0, 0)` on the x-axis beyond the smaller
primary, used to evaluate the Jacobian claim. -/
def s2C : Fin 6 → ℝ := ![2, 0, 0, 0, 0, 0]

/-- Concrete loaded state for evaluation: period 1 yr, L2 distance 1 AU,
equinox at MJD 1, zero start offset, samples at times 0 and 1 with all
sampled vectors zero. -/
def ctxC : HaloCtx :=
  { mu := 3 / 1000000
    period_halo := 1
    L2_dist := 1
    equinox := 1
    haloStartTime := 0
    SRP := true
    tSamples := [0, 1]
    rSamples := [fun _ => 0, fun _ => 0]
    vSamples := [fun _ => 0, fun _ => 0]
    rL2Samples := [fun _ => 0, fun _ => 0] }

/-- Concrete star-position oracle: every star sits at ecliptic position
`(1, 1, 0)` AU at every time. -/
def starC : ℕ → ℝ → Fin 3 → ℝ := fun _ _ => ![1, 1, 0]

/-- `orbit` with explicit state passing: the method reads the loaded state
and assigns no attribute, so it returns the state unchanged. -/
def orbitSt (ctx : HaloCtx) (earth : ℝ → Fin 3 → ℝ) (t : ℝ) (eclip : Bool) :
    HaloCtx × Except ModelErr (Fin 3 → Option ℝ) :=
  (ctx, orbit eclip2equatSpec ctx earth t eclip)

/-- `haloPosition` with explicit state passing. -/
def haloPositionSt (ctx : HaloCtx) (t : ℝ) :
    HaloCtx × Except ModelErr (Fin 3 → ℝ) :=
  (ctx, haloPosition ctx t)

/-- `haloVelocity` with explicit state passing. -/
def haloVelocitySt (ctx : HaloCtx) (t : ℝ) :
    HaloCtx × Except ModelErr (Fin 3 → ℝ) :=
  (ctx, haloVelocity ctx t)

/-- `lookVectors` with explicit state passing. -/
def lookVectorsSt (ctx : HaloCtx) (star : ℕ → ℝ → Fin 3 → ℝ)
    (N1 N2 : ℕ) (tA tB : ℝ) :
    HaloCtx ×
      Except ModelErr (ℝ × (Fin 3 → ℝ) × (Fin 3 → ℝ) × (Fin 2 → Fin 3 → ℝ)) :=
  (ctx, lookVectors star ctx N1 N2 tA tB)

/-- `eclip2rot` with explicit state passing. -/
def eclip2rotSt (ctx : HaloCtx) (star : ℕ → ℝ → Fin 3 → ℝ) (sInd : ℕ)
    (t : ℝ) : HaloCtx × (Fin 3 → ℝ) :=
  (ctx, eclip2rot star ctx sInd t)

/-- `rot2inertV` with explicit state passing. -/
def rot2inertVSt (ctx : HaloCtx) (rR vR : Fin 3 → ℝ) (tn : ℝ) :
    HaloCtx × (Fin 3 → ℝ) :=
  (ctx, rot2inertV rR vR tn)

/-- `inert2rotV` with explicit state passing. -/
def inert2rotVSt (ctx : HaloCtx) (rR vI : Fin 3 → ℝ) (tn : ℝ) :
    HaloCtx × (Fin 3 → ℝ) :=
  (ctx, inert2rotV rR vI tn)

/-- `equationsOfMotion_CRTBP` with explicit state passing (it reads
`self.mu` and `self.SRP`). -/
def equationsOfMotionSt (ctx : HaloCtx) (t : ℝ) (s : Fin 6 → ℝ) :
    HaloCtx × (Fin 6 → ℝ) :=
  (ctx, equationsOfMotion_CRTBP ctx.mu ctx.SRP s)

/-- `jacobian_CRTBP` with explicit state passing. -/
def jacobianSt (ctx : HaloCtx) (t : ℝ) (s : Fin 6 → ℝ) :
    HaloCtx × (Fin 6 → Fin 6 → ℝ) :=
  (ctx, jacobian_CRTBP ctx.mu s)

/-- The `integrate` method with explicit state passing: it hands the
equations of motion, the initial state and the time sequence to the
external ODE solver (`scipy.integrate.odeint`), taken here as the
parameter `solver`. -/
def integrateSt (ctx : HaloCtx)
    (solver : (ℝ → (Fin 6 → ℝ) → Fin 6 → ℝ) → (Fin 6 → ℝ) → List ℝ →
      List (Fin 6 → ℝ))
    (s0 : Fin 6 → ℝ) (ts : List ℝ) : HaloCtx × List (Fin 6 → ℝ) :=
  (ctx, solver (fun t s => equationsOfMotion_CRTBP ctx.mu ctx.SRP s) s0 ts)

/-- Shifting the argument of the float modulo by an integer multiple of the
(nonzero) modulus leaves the wrapped value unchanged. -/
theorem wrapTime_add_int_mul (P dt : ℝ) (k : ℤ) (hP : P ≠ 0) :
    wrapTime P (dt + k * P) = wrapTime P dt := by
  unfold wrapTime
  have h : (dt + k * P) / P = dt / P + k := by field_simp
  rw [h, Int.floor_add_int]
  push_cast
  ring

/-- The float modulo equals the modulus times the fractional part of the
quotient. -/
theorem wrapTime_eq_fract (P dt : ℝ) (hP : P ≠ 0) :
    wrapTime P dt = P * Int.fract (dt / P) := by
  unfold wrapTime Int.fract
  rw [mul_sub, mul_div_cancel₀ _ hP]

/-- For a positive modulus the wrapped time is nonnegative. -/
theorem wrapTime_nonneg (P dt : ℝ) (hP : 0 < P) : 0 ≤ wrapTime P dt := by
  rw [wrapTime_eq_fract P dt (ne_of_gt hP)]
  exact mul_nonneg hP.le (Int.fract_nonneg _)

/-- For a positive modulus the wrapped time is below the modulus. -/
theorem wrapTime_lt (P dt : ℝ) (hP : 0 < P) : wrapTime P dt < P := by
  rw [wrapTime_eq_fract P dt (ne_of_gt hP)]
  calc P * Int.fract (dt / P) < P * 1 :=
        (mul_lt_mul_left hP).mpr (Int.fract_lt_one _)
    _ = P := mul_one P

/-- Claim C6: for every query time `t` (MJD days) and every integer `k`,
`haloPosition(t)` equals `haloPosition(t + k * periodHalo)` exactly,
because the elapsed time is reduced modulo `periodHalo` before
interpolation (`periodHalo` is in normalized years; one year is 365.25
days at the MJD interface). -/
theorem C6_halo_periodicity (ctx : HaloCtx) (t : ℝ) (k : ℤ)
    (hP : 0 < ctx.period_halo) :
    haloPosition ctx (t + k * (365.25 * ctx.period_halo)) =
      haloPosition ctx t := by
  unfold haloPosition
  have h : elapsedYears ctx (t + k * (365.25 * ctx.period_halo))
      = elapsedYears ctx t + k * ctx.period_halo := by
    unfold elapsedYears
    field_simp
    ring
  rw [h, wrapTime_add_int_mul _ _ _ (ne_of_gt hP)]

/-- Witness for C6 at the concrete loaded state `ctxC`, `t = 1`, `k = 2`. -/
theorem C6_halo_periodicity_witness :
    (0 : ℝ) < ctxC.period_halo ∧
    haloPosition ctxC (1 + ((2 : ℤ) : ℝ) * (365.25 * ctxC.period_halo)) =
      haloPosition ctxC 1 :=
  ⟨by norm_num [ctxC], C6_halo_periodicity ctxC 1 2 (by norm_num [ctxC])⟩

/-- Claim C7: the first three components of the state derivative returned
by `equationsOfMotion_CRTBP` are exactly the velocity components of the
input state, for every mass ratio, SRP setting and state; in particular at
`mu = 3.0e-6` and state `(0.99, 0, 0, 0, 0.01, 0)` they are `(0, 0.01, 0)`. -/
theorem C7_velocity_components (mu : ℝ) (srp : Bool) (s : Fin 6 → ℝ) :
    equationsOfMotion_CRTBP mu srp s 0 = s 3 ∧
    equationsOfMotion_CRTBP mu srp s 1 = s 4 ∧
    equationsOfMotion_CRTBP mu srp s 2 = s 5 ∧
    equationsOfMotion_CRTBP muC true ![99/100, 0, 0, 0, 1/100, 0] 0 = 0 ∧
    equationsOfMotion_CRTBP muC true ![99/100, 0, 0, 0, 1/100, 0] 1 = 1/100 ∧
    equationsOfMotion_CRTBP muC true ![99/100, 0, 0, 0, 1/100, 0] 2 = 0 := by
  exact ⟨rfl, rfl, rfl, rfl, rfl, rfl⟩

/-- Claim C4: evaluation of the constructor's loading logic.  With the
default (None) cache path and no cache on disk, the bundled data file is
converted and persisted to the default cache path; with no cache and no
data file, construction fails with the data-unavailable error; a valid
caller-supplied cache is used as-is.  But a caller-supplied cache path
whose file is absent makes the update branch read the unbound local
`filename`: construction crashes with a NameError instead of converting
the data file and persisting to that path, contradicting the claim. -/
theorem C4_construct_eval :
    constructLoad "cache" (some "/custom/halo.p") (fun _ => none) true =
      .error .nameError ∧
    constructLoad "cache" none (fun _ => none) true =
      .ok ⟨.fromMat, "cache/L2_halo_orbit_six_month.p", true⟩ ∧
    constructLoad "cache" none (fun _ => none) false =
      .error .dataUnavailable ∧
    constructLoad "cache" (some "/custom/halo.p")
      (fun p => if p = "/custom/halo.p" then some keysHalo else none) true =
      .ok ⟨.fromCache, "/custom/halo.p", false⟩ := by
  refine ⟨rfl, rfl, rfl, ?_⟩
  simp [constructLoad, keysHalo]

/-- Claim C9: every query and dynamics operation, written with explicit
state passing as translated from the source (no method assigns any
attribute of the loaded state), returns the `HaloCtx` unchanged: the
ephemeris state is read-only after construction. -/
theorem C9_state_immutable (ctx : HaloCtx) (earth : ℝ → Fin 3 → ℝ)
    (star : ℕ → ℝ → Fin 3 → ℝ)
    (solver : (ℝ → (Fin 6 → ℝ) → Fin 6 → ℝ) → (Fin 6 → ℝ) → List ℝ →
      List (Fin 6 → ℝ))
    (t tA tB tn : ℝ) (eclip : Bool) (N1 N2 sInd : ℕ)
    (rR vR vI : Fin 3 → ℝ) (s6 s0 : Fin 6 → ℝ) (ts : List ℝ) :
    (orbitSt ctx earth t eclip).1 = ctx ∧
    (haloPositionSt ctx t).1 = ctx ∧
    (haloVelocitySt ctx t).1 = ctx ∧
    (lookVectorsSt ctx star N1 N2 tA tB).1 = ctx ∧
    (eclip2rotSt ctx star sInd t).1 = ctx ∧
    (rot2inertVSt ctx rR vR tn).1 = ctx ∧
    (inert2rotVSt ctx rR vI tn).1 = ctx ∧
    (equationsOfMotionSt ctx t s6).1 = ctx ∧
    (jacobianSt ctx t s6).1 = ctx ∧
    (integrateSt ctx solver s0 ts).1 = ctx :=
  ⟨rfl, rfl, rfl, rfl, rfl, rfl, rfl, rfl, rfl, rfl⟩

/-- Inside the sampled domain the interpolant evaluation succeeds. -/
theorem interpEval_ok_of_mem (t0 : ℝ) (rest : List ℝ) (ys : List (Fin 3 → ℝ))
    (x : ℝ) (h1 : t0 ≤ x) (h2 : x ≤ rest.getLastD t0) :
    interpEval (t0 :: rest) ys x =
      .ok (pieceEval (List.zip (t0 :: rest) ys) x) := by
  have hc : ¬ (x < t0 ∨ rest.getLastD t0 < x) := by
    push_neg
    exact ⟨h1, h2⟩
  simp only [interpEval]
  rw [if_neg hc]

/-- Inside the sampled domain the interpolant evaluation returns a value. -/
theorem interpEval_exists_ok (t0 : ℝ) (rest : List ℝ) (ys : List (Fin 3 → ℝ))
    (x : ℝ) (h1 : t0 ≤ x) (h2 : x ≤ rest.getLastD t0) :
    ∃ v, interpEval (t0 :: rest) ys x = .ok v :=
  ⟨_, interpEval_ok_of_mem t0 rest ys x h1 h2⟩

/-- Claim C8: under the ephemeris invariant (samples starting at or before
0, reaching at least one full period, positive period), the time reduced
modulo the period always lies inside the interpolants' sampled domain, so
the out-of-domain branch of the position/velocity/haloPosition queries is
unreachable; and an out-of-domain evaluation, were it to occur, fails with
the domain error instead of extrapolating. -/
theorem C8_domain_safety (ctx : HaloCtx) (t0 : ℝ) (rest : List ℝ)
    (hts : ctx.tSamples = t0 :: rest) (h0 : t0 ≤ 0)
    (hP : 0 < ctx.period_halo) (hl : ctx.period_halo ≤ rest.getLastD t0) :
    (∀ t : ℝ,
      (∃ v, positionEarthRel ctx t = .ok v) ∧
      (∃ v, haloPosition ctx t = .ok v) ∧
      (∃ v, haloVelocity ctx t = .ok v)) ∧
    (∀ (x : ℝ) (ys : List (Fin 3 → ℝ)), (x < t0 ∨ rest.getLastD t0 < x) →
      interpEval ctx.tSamples ys x = .error .domainError) := by
  constructor
  · intro t
    have hx1 : t0 ≤ wrapTime ctx.period_halo (elapsedYears ctx t) :=
      le_trans h0 (wrapTime_nonneg _ _ hP)
    have hx2 : wrapTime ctx.period_halo (elapsedYears ctx t) ≤
        rest.getLastD t0 :=
      le_trans (le_of_lt (wrapTime_lt _ _ hP)) hl
    refine ⟨?_, ?_, ?_⟩ <;>
      · simp only [positionEarthRel, haloPosition, haloVelocity]
        rw [hts]
        exact interpEval_exists_ok _ _ _ _ hx1 hx2
  · intro x ys hx
    rw [hts]
    simp only [interpEval]
    rw [if_pos hx]

/-- Witness for C8 at the concrete loaded state `ctxC` and query time
`t = 5` MJD. -/
theorem C8_domain_safety_witness :
    ctxC.tSamples = 0 :: [1] ∧ (0 : ℝ) ≤ 0 ∧ (0 : ℝ) < ctxC.period_halo ∧
    ctxC.period_halo ≤ [(1 : ℝ)].getLastD 0 ∧
    (∃ v, haloPosition ctxC 5 = .ok v) :=
  ⟨rfl, le_refl 0, by norm_num [ctxC], by norm_num [ctxC, List.getLastD],
   (((C8_domain_safety ctxC 0 [1] rfl (le_refl 0) (by norm_num [ctxC])
      (by norm_num [ctxC, List.getLastD])).1 5).2.1)⟩

/-- If any component of a computed position is non-finite, the collected
vector is `none`. -/
theorem allSomeV_eq_none (o : Fin 3 → Option ℝ) (i : Fin 3)
    (h : o i = none) : allSomeV o = none := by
  unfold allSomeV
  fin_cases i <;> cases h0 : o 0 <;> cases h1 : o 1 <;> simp_all

/-- Claim C5: the `orbit` finiteness postcondition is asserted.  If any
component of the computed heliocentric-ecliptic position is non-finite the
method fails with the numerical fault (the value is neither clamped nor
returned); whenever it returns a vector, every component of that vector is
finite (with the obliquity-rotation frame conversion of the spec). -/
theorem C5_orbit_assert (rh rE : Fin 3 → ℝ) (eclip : Bool) :
    ((∃ i, orbitCompute rh rE i = none) →
      orbitAssertConv eclip2equatSpec rh rE eclip = .error .numericalFault) ∧
    (∀ w, orbitAssertConv eclip2equatSpec rh rE eclip = .ok w →
      ∀ i, ∃ xv, w i = some xv) := by
  constructor
  · rintro ⟨i, hi⟩
    unfold orbitAssertConv
    rw [allSomeV_eq_none _ i hi]
  · intro w hw i
    unfold orbitAssertConv at hw
    cases hm : allSomeV (orbitCompute rh rE) with
    | none => rw [hm] at hw; exact absurd hw (by simp)
    | some v =>
      rw [hm] at hw
      have hw' : (if eclip then (fun j => some (v j)) else eclip2equatSpec v)
          = w := by
        simpa using hw
      rw [← hw']
      cases eclip
      · fin_cases i <;> exact ⟨_, rfl⟩
      · exact ⟨_, rfl⟩

/-- Witness for C5: with the interpolated position and Earth position both
zero, the ecliptic-longitude division `0/0` produces a non-finite value and
`orbit` raises the numerical fault. -/
theorem C5_orbit_assert_witness :
    orbitAssertConv eclip2equatSpec (fun _ => 0) (fun _ => 0) false =
      .error .numericalFault :=
  (C5_orbit_assert (fun _ => 0) (fun _ => 0) false).1
    ⟨0, by norm_num [orbitCompute, fadd, fmul, fneg, fdiv, fsqrt, farccos,
      fsign, fcos, fsin, Real.sqrt_zero]⟩

/-- Claim C10: the finiteness assertion of `orbit` is evaluated on the
ecliptic-frame vector before the optional ecliptic-to-equatorial
conversion; in the default `eclip=False` call, whatever the conversion
returns is handed back to the caller without any further check, so a
non-finite value introduced by the conversion would be returned. -/
theorem C10_unchecked_conversion (conv : (Fin 3 → ℝ) → Fin 3 → Option ℝ)
    (rh rE : Fin 3 → ℝ) (v : Fin 3 → ℝ)
    (h : allSomeV (orbitCompute rh rE) = some v) :
    orbitAssertConv conv rh rE false = .ok (conv v) := by
  unfold orbitAssertConv
  rw [h]
  simp

/-- Witness for C10: a conversion that produces only non-finite components
is returned as-is by `orbit` when the computed ecliptic vector is finite. -/
theorem C10_unchecked_conversion_witness :
    orbitAssertConv (fun _ _ => none) (fun _ => 0) ![1, 0, 0] false =
      .ok (fun _ => none) := by
  have h : allSomeV (orbitCompute (fun _ => 0) ![1, 0, 0]) = some ![1, 0, 0] := by
    norm_num [allSomeV, orbitCompute, fadd, fmul, fneg, fdiv, fsqrt, farccos,
      fsign, fcos, fsin, Real.sqrt_one, Real.arccos_one, Real.sign_zero]
  exact C10_unchecked_conversion (fun _ _ => none) (fun _ => 0) ![1, 0, 0]
    ![1, 0, 0] h

/-- Counterexample to claim C3: at `mu = 3.0e-6` and body position
`(0, 1, 0)`, the radial unit vector actually used by the source
(`rS_M1 = [x,y,z] - [-m2,0,0]`, then normalized) has positive x-component,
while the unit vector computed from the position relative to the smaller
primary at `(1-mu, 0, 0)` - as the claim states - has negative
x-component; they differ. -/
theorem C3_smaller_primary_counterexample :
    srpU1 muC 0 1 0 0 ≠ srpU1spec muC 0 1 0 0 := by
  have hden1 : 0 < norm3 (srpRS muC 0 1 0) := by
    unfold norm3 srpRS largerPrimaryPos
    apply Real.sqrt_pos.mpr
    norm_num [muC]
  have hden2 : 0 < norm3 (srpRSspec muC 0 1 0) := by
    unfold norm3 srpRSspec smallerPrimaryPos
    apply Real.sqrt_pos.mpr
    norm_num [muC]
  have hpos : 0 < srpU1 muC 0 1 0 0 := by
    unfold srpU1
    apply div_pos _ hden1
    norm_num [srpRS, largerPrimaryPos, muC]
  have hneg : srpU1spec muC 0 1 0 0 < 0 := by
    unfold srpU1spec
    apply div_neg_of_neg_of_pos _ hden2
    norm_num [srpRSspec, smallerPrimaryPos, muC]
  exact (hneg.trans hpos).ne'

/-- Claim C3 (amended): in `equationsOfMotion_CRTBP` with SRP enabled, the
radial and tangential unit vectors of the SRP decomposition are computed
from the body's position relative to the LARGER primary (the primary of
mass fraction `1-mu`, located at `(-mu, 0, 0)`): the relative position used
is exactly the body position minus `largerPrimaryPos`, and each
acceleration component equals the SRP-free component plus the radial and
tangential forces along `srpU1` and `srpU2`. -/
theorem C3_srp_sunline (mu : ℝ) (s : Fin 6 → ℝ) :
    (∀ x y z, srpRS mu x y z =
      fun i => (![x, y, z]) i - largerPrimaryPos mu i) ∧
    equationsOfMotion_CRTBP mu true s 3 = equationsOfMotion_CRTBP mu false s 3
      + (FsrpR mu * srpU1 mu (s 0) (s 1) (s 2) 0
         + FsrpT mu * srpU2 mu (s 0) (s 1) (s 2) 0) ∧
    equationsOfMotion_CRTBP mu true s 4 = equationsOfMotion_CRTBP mu false s 4
      + (FsrpR mu * srpU1 mu (s 0) (s 1) (s 2) 1
         + FsrpT mu * srpU2 mu (s 0) (s 1) (s 2) 1) ∧
    equationsOfMotion_CRTBP mu true s 5 = equationsOfMotion_CRTBP mu false s 5
      + (FsrpR mu * srpU1 mu (s 0) (s 1) (s 2) 2
         + FsrpT mu * srpU2 mu (s 0) (s 1) (s 2) 2) := by
  have key : ∀ a b : ℝ, a + b = a + 0 + b := fun a b => by ring
  exact ⟨fun x y z => rfl, key _ _, key _ _, key _ _⟩

/-- At the concrete loaded state `ctxC` the halo interpolant evaluates to
the zero vector at MJD time 1. -/
theorem haloPosition_ctxC_one : haloPosition ctxC 1 = .ok (fun _ => (0:ℝ)) := by
  norm_num [haloPosition, elapsedYears, ctxC, wrapTime, interpEval,
    List.getLastD, pieceEval, List.zip, Int.floor_zero]

/-- Claim C1, evaluated at the failing input: with every star at ecliptic
position `(1,1,0)` AU, the loaded state `ctxC` (telescope at rotating-frame
position `(1,0,0)` AU at MJD 1), the same star index `N1 = N2 = 0` and the
same times `tA = tB = 1`, `lookVectors` returns an angle of 90 degrees,
not the 0 degrees that the arccos of the dot product of the two (equal)
unit look-vectors would give: the source computes
`arccos(u1[0]*u2[0])` from the x-components alone. -/
theorem C1_lookVectors_bug :
    (lookVectors starC ctxC 0 0 1 1).map (fun r => r.1) = .ok 90 ∧
    (90 : ℝ) ≠ 0 := by
  refine ⟨?_, by norm_num⟩
  simp only [lookVectors, haloPosition_ctxC_one, Except.bind, Except.map]
  norm_num [eclip2rot, rot3apply, norm3, wrapTime, elapsedYears, ctxC, starC,
    Int.floor_one, Real.cos_zero, Real.sin_zero, Real.arccos_zero]
  field_simp
  ring

/-- For a nonnegative base, the Python fractional power `(a**2)**1.5`
equals the cube. -/
theorem sq_rpow_three_halves (a : ℝ) (ha : 0 ≤ a) :
    ((a ^ 2 : ℝ)) ^ (1.5 : ℝ) = a ^ 3 := by
  rw [← Real.rpow_natCast a 2, ← Real.rpow_mul ha,
    show ((2 : ℕ) : ℝ) * (1.5 : ℝ) = ((3 : ℕ) : ℝ) by norm_num,
    Real.rpow_natCast]

/-- Claim C2, evaluated at the failing input: at `mu = 3.0e-6` and state
`(2,0,0,0,0,0)` (on the x-axis, away from both primaries), the partial
derivative of the x-acceleration returned by `equationsOfMotion_CRTBP`
(SRP disabled) with respect to the state's x-component is
`1 + 2(1-mu)/(2+mu)^3 + 2mu/(1+mu)^3` (about 1.25), while the Jacobian
entry `jacobian_CRTBP[3][0]` equals
`3mu - mu/(1+mu)^3 - (1-mu)/(2-mu)^3 + 3(1-mu)(2+mu)/(2-mu) + 1`
(about 3.875); the two differ, so `jacobian_CRTBP` is not the derivative
of `equationsOfMotion_CRTBP` with respect to the state. -/
theorem C2_jacobian_bug :
    HasDerivAt
      (fun v : ℝ =>
        equationsOfMotion_CRTBP muC false (Function.update s2C 0 v) 3)
      (1 + 2 * (1 - muC) / (2 + muC) ^ 3 + 2 * muC / (1 + muC) ^ 3) 2 ∧
    jacobian_CRTBP muC s2C 3 0 =
      3 * muC - muC / (1 + muC) ^ 3 - (1 - muC) / (2 - muC) ^ 3
        + 3 * (1 - muC) * (2 + muC) / (2 - muC) + 1 ∧
    1 + 2 * (1 - muC) / (2 + muC) ^ 3 + 2 * muC / (1 + muC) ^ 3 ≠
      3 * muC - muC / (1 + muC) ^ 3 - (1 - muC) / (2 - muC) ^ 3
        + 3 * (1 - muC) * (2 + muC) / (2 - muC) + 1 := by
  refine ⟨?_, ?_, ?_⟩
  · -- the true partial derivative, via a local rational form of the EoM
    have hg : HasDerivAt
        (fun v : ℝ => v - (1 - muC) / ((v + muC) ^ 2)
          - muC / ((v + muC - 1) ^ 2))
        (1 + 2 * (1 - muC) / (2 + muC) ^ 3 + 2 * muC / (1 + muC) ^ 3) 2 := by
      have h1 : HasDerivAt (fun v : ℝ => (v + muC) ^ 2) (2 * (2 + muC)) 2 := by
        have h := ((hasDerivAt_id (2 : ℝ)).add_const muC).pow 2
        norm_num at h
        convert h using 1
      have h2 : HasDerivAt (fun v : ℝ => (v + muC - 1) ^ 2)
          (2 * (1 + muC)) 2 := by
        have h := (((hasDerivAt_id (2 : ℝ)).add_const muC).sub_const 1).pow 2
        norm_num at h
        convert h using 1
        all_goals ring
      have hne1 : ((2 : ℝ) + muC) ^ 2 ≠ 0 := by norm_num [muC]
      have hne2 : ((2 : ℝ) + muC - 1) ^ 2 ≠ 0 := by norm_num [muC]
      have hd1 := (hasDerivAt_const (2 : ℝ) (1 - muC)).div h1 hne1
      have hd2 := (hasDerivAt_const (2 : ℝ) muC).div h2 hne2
      have hsum := ((hasDerivAt_id' (x := (2 : ℝ))).sub hd1).sub hd2
      convert hsum using 1
      have c1 : ((2 : ℝ) + muC) ≠ 0 := by norm_num [muC]
      have c2 : ((2 : ℝ) + muC - 1) ≠ 0 := by norm_num [muC]
      have c3 : ((1 : ℝ) + muC) ≠ 0 := by norm_num [muC]
      field_simp
      ring
    refine hg.congr_of_eventuallyEq ?_
    filter_upwards [Ioi_mem_nhds (show (3 / 2 : ℝ) < 2 by norm_num)] with v hv
    have hv32 : (3 / 2 : ℝ) < v := hv
    have hv1 : (0 : ℝ) < v + muC := by
      have : (0 : ℝ) < muC := by norm_num [muC]
      linarith
    have hv2 : (1 : ℝ) - muC - v < 0 := by
      have : (0 : ℝ) < muC := by norm_num [muC]
      linarith
    show v + 2 * 0
        + (1 - muC) * (-muC - v)
          / (Real.sqrt ((v + muC) ^ 2 + 0 ^ 2 + 0 ^ 2)) ^ 3
        + muC * (1 - muC - v)
          / (Real.sqrt ((1 - muC - v) ^ 2 + 0 ^ 2 + 0 ^ 2)) ^ 3
        + 0 = _
    rw [show (v + muC) ^ 2 + (0 : ℝ) ^ 2 + 0 ^ 2 = (v + muC) ^ 2 by ring,
      show (1 - muC - v) ^ 2 + (0 : ℝ) ^ 2 + 0 ^ 2 = (1 - muC - v) ^ 2 by
        ring,
      Real.sqrt_sq hv1.le, Real.sqrt_sq_eq_abs, abs_of_neg hv2]
    have c1 : v + muC ≠ 0 := hv1.ne'
    have c2 : v + muC - 1 ≠ 0 := by
      have : (0 : ℝ) < v + muC - 1 := by linarith
      exact this.ne'
    rw [show -(1 - muC - v) = v + muC - 1 by ring]
    field_simp
    ring
  · -- evaluation of the Jacobian entry
    have h0 : jacobian_CRTBP muC s2C 3 0 =
        3 * muC * (2 * muC + 2 * 2 - 2) * (muC + 2 - 1)
            / (2 * ((muC + 2 - 1) ^ 2 + 0 ^ 2 + 0 ^ 2))
          - muC / ((muC + 2 - 1) ^ 2 + 0 ^ 2 + 0 ^ 2) ^ (1.5 : ℝ)
          - (1 - muC) / ((muC - 2) ^ 2 + 0 ^ 2 + 0 ^ 2) ^ (1.5 : ℝ)
          - 3 * (1 - muC) * (2 * muC - 2 * 2) * (muC + 2)
            / (2 * ((muC - 2) ^ 2 + 0 ^ 2 + 0 ^ 2)) + 1 := rfl
    rw [h0,
      show (muC + 2 - 1) ^ 2 + (0 : ℝ) ^ 2 + 0 ^ 2 = (1 + muC) ^ 2 by ring,
      show (muC - 2) ^ 2 + (0 : ℝ) ^ 2 + 0 ^ 2 = (2 - muC) ^ 2 by ring,
      sq_rpow_three_halves (1 + muC) (by norm_num [muC]),
      sq_rpow_three_halves (2 - muC) (by norm_num [muC])]
    have c1 : (1 : ℝ) + muC ≠ 0 := by norm_num [muC]
    have c2 : (2 : ℝ) - muC ≠ 0 := by norm_num [muC]
    field_simp
    ring
  · norm_num [muC]

end

